import Mathlib

/-!
# Verification of the TYT MD-UV380 / OpenGD77 CSV converter core

Shallow embedding of the converter source (`src/main.py`) over Lean data
types, together with proofs settling the frozen specification claims.

Modelling conventions:
* Python `set` objects of identifier strings become `Finset String`.
* pandas DataFrames become `List` of record structures; a missing cell
  (NaN) becomes `Option.none`; numeric cells become `Rat` because
  `pd.to_numeric` may produce floats.
* `pd.to_numeric(..., errors=coerce)` is modelled by `pyToNumericP`,
  which records both the parsed value and whether the literal was
  syntactically a float (which controls the pandas column dtype and
  therefore how `str(...)` renders the value).
* Python `int(...)` on a string is modelled by `pyStrToInt`; it fails on
  float-shaped strings exactly as the Python call raises `ValueError`.
-/

/-! ## Selection store (`SelectionManager`, src/main.py lines 6-40) -/

/-- `OpenGD77Converter.MAX_CONTACTS` (src/main.py line 689). -/
def MAX_CONTACTS : Nat := 1024

/-- `SelectionManager.toggle_selection`: remove the id if present, add it
otherwise.  Identifiers arrive already stringified, so the `str(...)`
coercion in the source is the identity here. -/
def toggle_selection (sel : Finset String) (idStr : String) : Finset String :=
  if idStr ∈ sel then sel.erase idStr else insert idStr sel

/-- `SelectionManager.select_all`: add every id from the list.  The store
itself enforces no cardinality limit. -/
def select_all (sel : Finset String) (idList : List String) : Finset String :=
  sel ∪ idList.toFinset

/-- `SelectionManager.select_only`: replace the whole selection. -/
def select_only (_sel : Finset String) (idList : List String) : Finset String :=
  idList.toFinset

/-- `SelectionManager.deselect_all`. -/
def deselect_all (_sel : Finset String) : Finset String := ∅

/-- `SelectionManager.is_selected`. -/
def is_selected (sel : Finset String) (idStr : String) : Bool :=
  decide (idStr ∈ sel)

/-- `SelectionManager.get_selected_from_filtered`: intersection with the
currently filtered ids. -/
def get_selected_from_filtered (sel : Finset String) (filteredIds : List String) :
    Finset String :=
  sel ∩ filteredIds.toFinset

/-- `ContactChannelEditor.toggle_contact_selection` (src/main.py lines
450-476), restricted to its effect on the contact selection store: when
the id is not yet selected and the store already holds `MAX_CONTACTS`
ids, the toggle is rejected and the store is left unchanged; otherwise
the store operation `toggle_selection` runs. -/
def toggle_contact_selection (sel : Finset String) (idStr : String) : Finset String :=
  if is_selected sel idStr = false ∧ MAX_CONTACTS ≤ sel.card then sel
  else toggle_selection sel idStr

/-- `ContactChannelEditor.select_all_contacts` (src/main.py lines
504-522), restricted to its effect on the contact selection store: each
visible id is added while the store is below `MAX_CONTACTS`; once the
store reaches the limit the loop stops adding (`break` in the source,
which is equivalent to skipping the remaining ids). -/
def select_all_contacts (sel : Finset String) (visibleIds : List String) : Finset String :=
  visibleIds.foldl
    (fun s idStr => if s.card < MAX_CONTACTS then insert idStr s else s) sel

/-- `ContactChannelEditor.select_all_channels` (src/main.py lines
532-545): unbounded additive selection. -/
def select_all_channels (sel : Finset String) (visibleIds : List String) : Finset String :=
  visibleIds.foldl (fun s idStr => insert idStr s) sel

/-! ## Python value and numeric-parsing model -/

/-- A Python scalar as far as canonicalization is concerned: an integer
or a string. -/
inductive PyVal where
  | vint : Int → PyVal
  | vstr : String → PyVal
deriving DecidableEq

/-- Python `str(...)` on a `PyVal`. -/
def pyStr : PyVal → String
  | .vint n => toString n
  | .vstr s => s

/-- The canonical identifier of a value: the program uses `str(...)`
everywhere an id enters the selection store. -/
def canonicalize (v : PyVal) : String := pyStr v

/-- Numeric value of a digit list (most significant digit first). -/
def digitsVal (cs : List Char) : Nat :=
  cs.foldl (fun a c => a * 10 + (c.toNat - 48)) 0

/-- Strip leading and trailing whitespace from a character list. -/
def stripChars (cs : List Char) : List Char :=
  ((cs.dropWhile Char.isWhitespace).reverse.dropWhile Char.isWhitespace).reverse

/-- Python `.strip()` (whitespace trim at both ends). -/
def pyStrip (s : String) : String :=
  String.mk (stripChars s.data)

/-- Parse a non-empty all-digit character list. -/
def parseDigits (cs : List Char) : Option Nat :=
  if cs ≠ [] ∧ cs.all Char.isDigit then some (digitsVal cs) else none

/-- Python `.lower()`. -/
def pyLower (s : String) : String :=
  String.mk (s.data.map Char.toLower)

/-- Split a character list at the first dot, if any. -/
def splitAtDot : List Char → List Char × Option (List Char)
  | [] => ([], none)
  | c :: cs =>
      if c = '.' then ([], some cs)
      else
        let p := splitAtDot cs
        (c :: p.1, p.2)

/-- Result of `pd.to_numeric` on one cell: the parsed rational value plus
whether the literal was syntactically a float (`"7.0"`, `"2.5"`), which
determines the resulting pandas column dtype. -/
structure PyNum where
  isFloat : Bool
  val : Rat
deriving DecidableEq

/-- `pd.to_numeric(cell, errors=coerce)` on a string cell, modelled for
optionally signed decimal literals; anything else coerces to NaN
(`none`). -/
def pyToNumericP (s : String) : Option PyNum :=
  let cs := stripChars s.data
  let sg : Int × List Char :=
    match cs with
    | c :: rest =>
        if c = '-' then (-1, rest) else if c = '+' then (1, rest) else (1, cs)
    | [] => (1, [])
  match splitAtDot sg.2 with
  | (ip, none) =>
      if ip ≠ [] ∧ ip.all Char.isDigit then
        some ⟨false, ((sg.1 * digitsVal ip : Int) : Rat)⟩
      else none
  | (ip, some fp) =>
      if (ip ≠ [] ∨ fp ≠ []) ∧ ip.all Char.isDigit ∧ fp.all Char.isDigit then
        some ⟨true, (sg.1 : Rat) * ((digitsVal ip : Rat) + (digitsVal fp : Rat) / ((10 : Rat) ^ fp.length))⟩
      else none

/-- The numeric value alone (ignoring the float/int dtype distinction). -/
def pyToNumeric (s : String) : Option Rat :=
  (pyToNumericP s).map PyNum.val

/-- Python `int(id_str)` as used by `import_selected` (src/main.py lines
648 and 666): succeeds on optionally signed digit strings (surrounding
whitespace allowed) and raises `ValueError` (modelled by `none`) on
anything else, in particular on float-shaped strings such as
`"2621234.0"`. -/
def pyStrToInt (s : String) : Option Int :=
  match stripChars s.data with
  | [] => none
  | c :: rest =>
      if c = '-' then (parseDigits rest).map (fun n => -(n : Int))
      else if c = '+' then (parseDigits rest).map (fun n => (n : Int))
      else (parseDigits (c :: rest)).map (fun n => (n : Int))

/-- pandas `str(cell)` for a numeric ID column: an int64 column renders
`7`, a float64 column renders `7.0`.  Only integral floats occur in the
scenarios exercised here; a non-integral value keeps its rational
rendering. -/
def pyStrOfId (columnIsFloat : Bool) (q : Rat) : String :=
  if columnIsFloat then
    if q.den = 1 then toString q.num ++ ".0" else toString q
  else toString q.num

/-! ## Record schemas (target shape) -/

/-- Target-shape contact record (`Contact Name;ID;ID Type;TS Override`).
`idType` is `none` when the source `Call Type` maps to no known type
(pandas `NaN` after `.map`). -/
structure Contact where
  contactName : String
  id : Rat
  idType : Option String
  tsOverride : String
deriving DecidableEq

/-- Target-shape channel record: the full 24-field OpenGD77 schema
produced by `OpenGD77Converter.convert_channels`. -/
structure Channel where
  channelNumber : Int
  channelName : String
  channelType : Option String
  rxFrequency : String
  txFrequency : String
  bandwidth : String
  colourCode : String
  timeslot : String
  contact : String
  tgList : String
  dmrID : String
  ts1TaTx : String
  ts2TaTx : String
  rxTone : String
  txTone : String
  squelch : String
  power : String
  rxOnly : String
  zoneSkip : String
  allSkip : String
  tot : String
  vox : String
  noBeep : String
  noEco : String
  aprs : String
  latitude : String
  longitude : String
  useLocation : String
deriving DecidableEq

/-- One row of a TYT contact export (`Contact Name`, `Call Type`,
`Call ID`). -/
structure TYTContactRow where
  contactName : String
  callType : Int
  callID : Rat
deriving DecidableEq

/-- One row of a DC9AL contact list (`Callsign`, `Name`, `Radio ID`); the
`Name` cell may be missing (NaN). -/
structure DC9ALRow where
  callsign : String
  name : Option String
  radioID : String
deriving DecidableEq

/-- One row of a TYT channel export.  `srcChannelIndex` stands for any
channel-number-like column of the source file: the converter never reads
it. -/
structure TYTChannelRow where
  channelName : String
  channelMode : Int
  rxFreq : String
  txFreq : String
  colorCode : Int
  repeaterSlot : Int
  ctcssDcsEnc : Option String
  srcChannelIndex : Int
deriving DecidableEq

/-! ## Deduplication (pandas `drop_duplicates(subset=[key])`, keep first) -/

/-- Worker for `dedupByKeyFirst`: keep a row exactly when its key has
not been seen on an earlier kept-or-dropped row. -/
def dedupByKeyAux {α κ : Type} [DecidableEq κ] (k : α → κ) (seen : List κ) :
    List α → List α
  | [] => []
  | x :: xs =>
      if k x ∈ seen then dedupByKeyAux k seen xs
      else x :: dedupByKeyAux k (k x :: seen) xs

/-- Keep the first occurrence of each key, dropping later rows whose key
already appeared. -/
def dedupByKeyFirst {α κ : Type} [DecidableEq κ] (k : α → κ) (l : List α) : List α :=
  dedupByKeyAux k [] l

/-! ## Format mappers (`OpenGD77Converter`, src/main.py lines 717-823) -/

/-- `OpenGD77Converter._convert_tyt_contacts` (src/main.py lines
739-750): `Contact Name` and `Call ID` are copied verbatim; `Call Type`
is mapped through `{1: Group, 2: Private}` (any other value becomes NaN,
i.e. `none`); no dropping, deduplication or positivity check happens. -/
def convert_tyt_contacts (rows : List TYTContactRow) : List Contact :=
  rows.map (fun r =>
    { contactName := r.contactName
      id := r.callID
      idType :=
        if r.callType = (1 : Int) then some "Group"
        else if r.callType = (2 : Int) then some "Private" else none
      tsOverride := "None" })

/-- The `Contact Name` lambda of `_convert_dc9al_contacts` (src/main.py
lines 755-760): trimmed callsign joined to trimmed name with one space
(the f-string result is stripped again), or the trimmed callsign alone
when the `Name` cell is missing or blank. -/
def dc9alRawName (row : DC9ALRow) : String :=
  match row.name with
  | some nm =>
      if pyStrip nm ≠ "" then pyStrip (pyStrip row.callsign ++ " " ++ pyStrip nm)
      else pyStrip row.callsign
  | none => pyStrip row.callsign

/-- The name clean-up of src/main.py line 770: double quotes and single
quotes are removed, commas are replaced by a space. -/
def sanitizeName (s : String) : String :=
  String.mk (s.data.foldr
    (fun c acc =>
      if c = Char.ofNat 34 ∨ c = Char.ofNat 39 then acc
      else if c = ',' then ' ' :: acc else c :: acc) [])

/-- The final record shape of one surviving DC9AL row: cleaned name,
parsed id, constant `Private` and `None` columns (src/main.py lines
763-764 and 770). -/
def dc9alFinalize (p : String × Rat) : Contact :=
  { contactName := sanitizeName p.1
    id := p.2
    idType := some "Private"
    tsOverride := "None" }

/-- `OpenGD77Converter._convert_dc9al_contacts` (src/main.py lines
752-773): build the name column, parse `Radio ID` with
`pd.to_numeric(errors=coerce)`, drop NaN ids, keep ids `> 0`,
deduplicate by id keeping the first occurrence, then clean the surviving
names.  `ID Type` is the constant `Private` and `TS Override` the
constant `None`. -/
def convert_dc9al_contacts (rows : List DC9ALRow) : List Contact :=
  let withIds : List (String × Rat) :=
    rows.filterMap (fun row =>
      (pyToNumeric row.radioID).map (fun q => (dc9alRawName row, q)))
  let positive := withIds.filter (fun p => decide (0 < p.2))
  let deduped := dedupByKeyFirst Prod.snd positive
  deduped.map dc9alFinalize

/-- Whether the DC9AL `ID` column ends up with pandas dtype float64:
this happens when any `Radio ID` cell fails to parse (NaN) or parses as
a syntactic float. -/
def dc9alIdColumnIsFloat (rows : List DC9ALRow) : Bool :=
  rows.any (fun r =>
    match pyToNumericP r.radioID with
    | none => true
    | some p => p.isFloat)

/-- The canonical identifier strings the editor derives from a DC9AL
conversion: `str(row[ID])` (src/main.py line 323) over the converted
record set, whose rendering depends on the column dtype. -/
def dc9alCanonicalKeys (rows : List DC9ALRow) : List String :=
  (convert_dc9al_contacts rows).map
    (fun c => pyStrOfId (dc9alIdColumnIsFloat rows) c.id)

/-- One output row of `OpenGD77Converter.convert_channels` (src/main.py
lines 783-814) for a given assigned channel number. -/
def mkChannel (num : Int) (r : TYTChannelRow) : Channel :=
  { channelNumber := num
    channelName := r.channelName
    channelType :=
      if r.channelMode = 1 then some "Analogue"
      else if r.channelMode = 2 then some "Digital" else none
    rxFrequency := r.rxFreq
    txFrequency := r.txFreq
    bandwidth := if r.channelMode = 1 then "25" else ""
    colourCode :=
      if r.channelMode = 2 ∧ 0 < r.colorCode then toString r.colorCode else ""
    timeslot :=
      if r.channelMode = 2 ∧ 0 < r.repeaterSlot then toString r.repeaterSlot else ""
    contact := "None"
    tgList := "None"
    dmrID := "None"
    ts1TaTx := "Off"
    ts2TaTx := "Off"
    rxTone := ""
    txTone :=
      match r.ctcssDcsEnc with
      | some s => if s ≠ "None" then s else ""
      | none => ""
    squelch := "Master"
    power := "Master"
    rxOnly := "No"
    zoneSkip := "No"
    allSkip := "No"
    tot := "180"
    vox := "Off"
    noBeep := "No"
    noEco := "No"
    aprs := "None"
    latitude := "0"
    longitude := "0"
    useLocation := "No" }

/-- Helper pairing each input row with its sequential channel number,
starting at `num`. -/
def convertChannelsFrom (num : Int) : List TYTChannelRow → List Channel
  | [] => []
  | r :: rs => mkChannel num r :: convertChannelsFrom (num + 1) rs

/-- `OpenGD77Converter.convert_channels`: the `Channel Number` column is
`range(1, len(df) + 1)`, i.e. sequential numbering in input row order. -/
def convert_channels (rows : List TYTChannelRow) : List Channel :=
  convertChannelsFrom 1 rows

/-! ## Editor state, view projection and export assembler
(`ContactChannelEditor`, src/main.py lines 42-686) -/

/-- The editor state relevant to selection and export: the immutable
original record sets, the currently filtered views, and the two
selection stores. -/
structure EditorState where
  originalContacts : List Contact
  contactsDf : List Contact
  originalChannels : List Channel
  channelsDf : List Channel
  contactSel : Finset String
  channelSel : Finset String
deriving DecidableEq

/-- Case-insensitive substring test (pandas
`.str.lower().str.contains(search_text)` with the search text already
lowercased). -/
def strContainsSub (hay pat : String) : Bool :=
  let rec starts : List Char → List Char → Bool
    | [], _ => true
    | _ :: _, [] => false
    | p :: ps, h :: hs => p = h && starts ps hs
  let rec scan : List Char → Bool
    | [] => starts pat.data []
    | c :: cs => starts pat.data (c :: cs) || scan cs
  scan hay.data

/-- `ContactChannelEditor.filter_contacts` (src/main.py lines 374-391):
recompute the filtered view from the original record set; the original
record set and both selection stores are untouched. -/
def filter_contacts (st : EditorState) (searchText filterType : String) : EditorState :=
  let s := pyLower searchText
  let f1 :=
    if s ≠ "" then
      st.originalContacts.filter (fun r => strContainsSub (pyLower r.contactName) s)
    else st.originalContacts
  let f2 :=
    if filterType ≠ "All" then f1.filter (fun r => decide (r.idType = some filterType))
    else f1
  { st with contactsDf := f2 }

/-- `ContactChannelEditor.filter_channels` (src/main.py lines 393-410). -/
def filter_channels (st : EditorState) (searchText filterType : String) : EditorState :=
  let s := pyLower searchText
  let f1 :=
    if s ≠ "" then
      st.originalChannels.filter (fun r => strContainsSub (pyLower r.channelName) s)
    else st.originalChannels
  let f2 :=
    if filterType ≠ "All" then
      f1.filter (fun r => decide (r.channelType = some filterType))
    else f1
  { st with channelsDf := f2 }

/-- A filter/search interaction: either tab's filter controls may change
any number of times before export. -/
inductive FilterOp where
  | contacts (searchText filterType : String)
  | channels (searchText filterType : String)

/-- Apply a sequence of filter interactions. -/
def applyFilterOps (st : EditorState) : List FilterOp → EditorState
  | [] => st
  | .contacts s t :: ops => applyFilterOps (filter_contacts st s t) ops
  | .channels s t :: ops => applyFilterOps (filter_channels st s t) ops

/-- The `int(id_str)` conversion loop of `import_selected`: all selected
identifier strings are converted to ints (`set` semantics deduplicates;
the subsequent `.sort()` only orders the membership list and has no
effect on row order).  A string that `int(...)` rejects raises
`ValueError`, modelled by `none`. -/
def selectionInts (sel : Finset String) : Option (Finset Int) :=
  if _h : ∀ s ∈ sel, (pyStrToInt s).isSome then
    some (sel.image (fun s => (pyStrToInt s).getD 0))
  else none

/-- The contact half of `import_selected` (src/main.py lines 646-662):
rows of the ORIGINAL record set whose `ID` is `.isin` the selected int
ids (pandas compares numerically, so a float id equals its int value),
in original row order, then `drop_duplicates(subset=[ID])`. -/
def import_selected_contacts (original : List Contact) (sel : Finset String) :
    Option (List Contact) :=
  (selectionInts sel).map (fun ints =>
    dedupByKeyFirst Contact.id
      (original.filter (fun r => decide (∃ n ∈ ints, ((n : Int) : Rat) = r.id))))

/-- The channel half of `import_selected` (src/main.py lines 664-676). -/
def import_selected_channels (original : List Channel) (sel : Finset String) :
    Option (List Channel) :=
  (selectionInts sel).map (fun ints =>
    dedupByKeyFirst Channel.channelNumber
      (original.filter (fun r => decide (r.channelNumber ∈ ints))))

/-- Errors of the export step. -/
inductive ExportError where
  | nothingSelected
  | conversionError
deriving DecidableEq

/-- `ContactChannelEditor.import_selected` (src/main.py lines 631-686):
fail when both selections are empty; otherwise assemble each non-empty
selection from the ORIGINAL record sets (a `None` entry means that
category produces no output file); any `int(...)` failure aborts the
whole step via the surrounding `try/except`. -/
def import_selected (st : EditorState) :
    Except ExportError (Option (List Contact) × Option (List Channel)) :=
  if st.contactSel = ∅ ∧ st.channelSel = ∅ then .error .nothingSelected
  else
    let cdf : Option (Option (List Contact)) :=
      if st.contactSel ≠ ∅ then
        (import_selected_contacts st.originalContacts st.contactSel).map some
      else some none
    let chdf : Option (Option (List Channel)) :=
      if st.channelSel ≠ ∅ then
        (import_selected_channels st.originalChannels st.channelSel).map some
      else some none
    match cdf, chdf with
    | some c, some ch => .ok (c, ch)
    | _, _ => .error .conversionError

/-- Contents of one output file. -/
inductive FileData where
  | contactsFile (rows : List Contact)
  | channelsFile (rows : List Channel)
  | otherFile (text : String)
deriving DecidableEq

/-- The output directory as a name-to-content map. -/
def FileSystem : Type := List (String × FileData)

/-- `OpenGD77Converter.save_csv`: (over)write one file. -/
def save_csv (fs : FileSystem) (name : String) (d : FileData) : FileSystem :=
  (name, d) :: fs.filter (fun p => decide (p.1 ≠ name))

/-- `OpenGD77GUI.continue_conversion_with_selection` (src/main.py lines
967-995): write `Contacts.csv` and `Channels.csv` for the categories
that produced output. -/
def continue_conversion_with_selection (fs : FileSystem)
    (cdf : Option (List Contact)) (chdf : Option (List Channel)) : FileSystem :=
  let fs1 :=
    match cdf with
    | some rows => save_csv fs "Contacts.csv" (.contactsFile rows)
    | none => fs
  match chdf with
  | some rows => save_csv fs1 "Channels.csv" (.channelsFile rows)
  | none => fs1

/-- The whole export interaction: a failing `import_selected` shows a
message box and never reaches the file-writing stage, leaving the
output directory untouched. -/
def runExportSession (st : EditorState) (fs : FileSystem) : FileSystem :=
  match import_selected st with
  | .error _ => fs
  | .ok (cdf, chdf) => continue_conversion_with_selection fs cdf chdf

/-- Whether one selected identifier string denotes the numeric id `q`. -/
def selIdDenotes (q : Rat) (s : String) : Bool :=
  match pyStrToInt s with
  | some n => decide (q = (n : Rat))
  | none => false

/-- The spec-side membership test for claim C1: a row is exported when
some selected identifier string denotes its `ID` (identifiers are
canonical integer strings, compared numerically against the id). -/
def idMatchesSelection (sel : Finset String) (q : Rat) : Bool :=
  decide (∃ s ∈ sel, selIdDenotes q s = true)

/-- The spec-side per-row DC9AL mapper for claim C6, following the
claim's wording: keep a row exactly when its `Radio ID` parses
numerically to a value `> 0`; the surviving row carries the cleaned
name, the parsed id, `ID Type` Private, `TS Override` None. -/
def dc9alSpecRow (row : DC9ALRow) : Option Contact :=
  match pyToNumeric row.radioID with
  | none => none
  | some q =>
      if 0 < q then
        some { contactName := sanitizeName (dc9alRawName row)
               id := q
               idType := some "Private"
               tsOverride := "None" }
      else none

/-! ## Concrete example inputs used by witnesses and counterexamples -/

/-- 1025 pairwise distinct identifier strings, as a direct call to the
raw store operation `select_all` could supply them. -/
def c2Ids : List String :=
  (List.range 1025).map (fun n => String.mk (List.replicate n 'a'))

/-- A contact with ID 5, listed first in `c4Orig`. -/
def bravoContact : Contact :=
  { contactName := "Bravo", id := 5, idType := some "Private", tsOverride := "None" }

/-- A contact with ID 3, listed second in `c4Orig`. -/
def alphaContact : Contact :=
  { contactName := "Alpha", id := 3, idType := some "Private", tsOverride := "None" }

/-- Contact record set whose row order is not ascending by ID. -/
def c4Orig : List Contact := [bravoContact, alphaContact]

/-- Both of the ids of `c4Orig`, selected. -/
def c4Sel : Finset String := {"5", "3"}

/-- The Private contact with ID 5 of the C1 witness. -/
def aliceContact : Contact :=
  { contactName := "Alice", id := 5, idType := some "Private", tsOverride := "None" }

/-- The Group contact with ID 9 of the C1 witness. -/
def tgContact : Contact :=
  { contactName := "TG Region", id := 9, idType := some "Group", tsOverride := "None" }

/-- Contact record set for the C1 witness: one Private, one Group. -/
def c1Orig : List Contact := [aliceContact, tgContact]

/-- C1 witness editor state: contact id `5` is selected. -/
def c1State : EditorState :=
  { originalContacts := c1Orig
    contactsDf := c1Orig
    originalChannels := []
    channelsDf := []
    contactSel := {"5"}
    channelSel := ∅ }

/-- C1 witness filter interaction: switch the type filter to `Group`,
which hides the selected Private contact id `5`. -/
def c1Ops : List FilterOp := [.contacts "" "Group"]

/-- Editor state with nothing selected, for the C5 witness. -/
def c5State : EditorState :=
  { originalContacts := c1Orig
    contactsDf := c1Orig
    originalChannels := []
    channelsDf := []
    contactSel := ∅
    channelSel := ∅ }

/-- A pre-existing output directory, for the C5 witness. -/
def c5Fs : FileSystem :=
  [("Contacts.csv", .otherFile "pre-existing"), ("Notes.txt", .otherFile "keep")]

/-- DC9AL input rows: the spec scenario row, a non-numeric `Radio ID`, a
zero `Radio ID`, and a duplicate id. -/
def dc9alExampleRows : List DC9ALRow :=
  [{ callsign := "DL1ABC", name := some "John", radioID := "2621234" },
   { callsign := "BAD", name := none, radioID := "abc" },
   { callsign := "ZERO", name := none, radioID := "0" },
   { callsign := "DUP", name := none, radioID := "2621234" }]

/-- The converted record expected from the spec scenario row of
`dc9alExampleRows`. -/
def dl1abcContact : Contact :=
  { contactName := "DL1ABC John"
    id := 2621234
    idType := some "Private"
    tsOverride := "None" }

/-- DC9AL input rows for the C3 failing input: one unparseable
`Radio ID` forces the pandas ID column to dtype float64. -/
def c3Rows : List DC9ALRow :=
  [{ callsign := "AAA", name := none, radioID := "abc" },
   { callsign := "DL1ABC", name := some "John", radioID := "2621234" }]

/-- TYT contact rows whose `Call ID` values are zero and duplicated. -/
def c9Rows : List TYTContactRow :=
  [{ contactName := "A", callType := 1, callID := 0 },
   { contactName := "B", callType := 2, callID := 0 }]

/-- TYT channel rows: one Digital row matching the C7 scenario and one
Analogue row; their `srcChannelIndex` values are deliberately absurd to
show the converter ignores them. -/
def c7Rows : List TYTChannelRow :=
  [{ channelName := "Repeater", channelMode := 2, rxFreq := "438.5125",
     txFreq := "430.9125", colorCode := 3, repeaterSlot := 1,
     ctcssDcsEnc := some "None", srcChannelIndex := 99 },
   { channelName := "Simplex", channelMode := 1, rxFreq := "145.500",
     txFreq := "145.500", colorCode := 0, repeaterSlot := 0,
     ctcssDcsEnc := some "None", srcChannelIndex := 7 }]

/-- Channel selection for the C4 witness: both converted channels. -/
def c4SelCh : Finset String := {"2", "1"}

/-- Contact selection for the C4 witness. -/
def c4WSel : Finset String := {"3"}

/-- Expected channel output of the C4 witness: both channels of
`c7Rows`, converted. -/
def c4WChannels : List Channel := convert_channels c7Rows

/-! # Theorems -/

/-! ## Generic facts about `dedupByKeyFirst` -/

theorem dedupByKeyAux_sublist {α κ : Type} [DecidableEq κ] (k : α → κ)
    (seen : List κ) (l : List α) : List.Sublist (dedupByKeyAux k seen l) l := by
  induction l generalizing seen with
  | nil => simp [dedupByKeyAux]
  | cons x xs ih =>
      rw [dedupByKeyAux]
      split
      · exact List.Sublist.cons x (ih seen)
      · exact List.Sublist.cons₂ x (ih (k x :: seen))

theorem dedupByKeyFirst_sublist {α κ : Type} [DecidableEq κ] (k : α → κ)
    (l : List α) : List.Sublist (dedupByKeyFirst k l) l :=
  dedupByKeyAux_sublist k [] l

theorem dedupByKeyAux_not_seen {α κ : Type} [DecidableEq κ] (k : α → κ)
    (l : List α) : ∀ (seen : List κ) (y : α),
      y ∈ dedupByKeyAux k seen l → k y ∉ seen := by
  induction l with
  | nil =>
      intro seen y hy
      simp [dedupByKeyAux] at hy
  | cons x xs ih =>
      intro seen y hy
      rw [dedupByKeyAux] at hy
      split at hy
      · exact ih seen y hy
      · next hx =>
          rcases List.mem_cons.mp hy with rfl | hmem
          · exact hx
          · have hnot := ih (k x :: seen) y hmem
            exact fun hcon => hnot (List.mem_cons_of_mem _ hcon)

theorem dedupByKeyAux_pairwise {α κ : Type} [DecidableEq κ] (k : α → κ)
    (l : List α) : ∀ seen : List κ,
      (dedupByKeyAux k seen l).Pairwise (fun a b => k a ≠ k b) := by
  induction l with
  | nil =>
      intro seen
      simp [dedupByKeyAux]
  | cons x xs ih =>
      intro seen
      rw [dedupByKeyAux]
      split
      · exact ih seen
      · refine List.Pairwise.cons ?_ (ih (k x :: seen))
        intro b hb hEq
        apply dedupByKeyAux_not_seen k xs (k x :: seen) b hb
        rw [← hEq]
        exact List.mem_cons_self _ _

theorem dedupByKeyFirst_pairwise {α κ : Type} [DecidableEq κ] (k : α → κ)
    (l : List α) : (dedupByKeyFirst k l).Pairwise (fun a b => k a ≠ k b) :=
  dedupByKeyAux_pairwise k l []

theorem dedupByKeyAux_map {α β κ : Type} [DecidableEq κ] (k : β → κ) (f : α → β)
    (l : List α) : ∀ seen : List κ,
      (dedupByKeyAux (fun a => k (f a)) seen l).map f
        = dedupByKeyAux k seen (l.map f) := by
  induction l with
  | nil => intro seen; rfl
  | cons x xs ih =>
      intro seen
      simp only [List.map_cons, dedupByKeyAux]
      by_cases h : k (f x) ∈ seen
      · rw [if_pos h, if_pos h, ih seen]
      · rw [if_neg h, if_neg h, List.map_cons, ih (k (f x) :: seen)]

theorem dedupByKeyFirst_map {α β κ : Type} [DecidableEq κ] (k : β → κ) (f : α → β)
    (l : List α) :
    (dedupByKeyFirst (fun a => k (f a)) l).map f = dedupByKeyFirst k (l.map f) :=
  dedupByKeyAux_map k f l []

/-! ## Selection-store lemmas -/

theorem select_all_contacts_card_le (ids : List String) :
    ∀ sel : Finset String, sel.card ≤ MAX_CONTACTS →
      (select_all_contacts sel ids).card ≤ MAX_CONTACTS := by
  induction ids with
  | nil =>
      intro sel h
      simpa [select_all_contacts] using h
  | cons i rest ih =>
      intro sel h
      have step : (if sel.card < MAX_CONTACTS then insert i sel else sel).card
          ≤ MAX_CONTACTS := by
        split
        · next hlt =>
            exact le_trans (Finset.card_insert_le _ _) hlt
        · exact h
      simpa [select_all_contacts, List.foldl_cons] using
        ih (if sel.card < MAX_CONTACTS then insert i sel else sel) step

/-! ## Claim C2 -/

/-- C2 counterexample: the raw Selection Store operation `select_all` —
claimed to keep the contact store at or below `MAX_CONTACTS` even when
"invoked directly on the store" — takes the store from empty to 1025
identifiers, exceeding `MAX_CONTACTS = 1024`, because
`SelectionManager.select_all` contains no limit check. -/
theorem c2_counterexample : MAX_CONTACTS < (select_all ∅ c2Ids).card := by
  have hinj : Function.Injective (fun n : Nat => String.mk (List.replicate n 'a')) := by
    intro a b hab
    have hlen := congrArg (fun s : String => s.data.length) hab
    simpa using hlen
  have hnodup : c2Ids.Nodup := (List.nodup_range 1025).map hinj
  have hcard : (select_all ∅ c2Ids).card = 1025 := by
    rw [select_all, Finset.empty_union, List.toFinset_card_of_nodup hnodup]
    simp [c2Ids]
  rw [hcard, MAX_CONTACTS]
  omega

/-- C2 (amended): the cardinality limit is enforced only by the editor
wrappers.  Starting from a store within the limit,
`toggle_contact_selection` and `select_all_contacts` keep the contact
store at or below `MAX_CONTACTS`, and a toggle that would add an
identifier to a full store is rejected with the store unchanged. -/
theorem c2_amended (sel : Finset String) (idStr : String) (ids : List String)
    (h : sel.card ≤ MAX_CONTACTS) :
    (toggle_contact_selection sel idStr).card ≤ MAX_CONTACTS
    ∧ (select_all_contacts sel ids).card ≤ MAX_CONTACTS
    ∧ (is_selected sel idStr = false → MAX_CONTACTS ≤ sel.card →
        toggle_contact_selection sel idStr = sel) := by
  refine ⟨?_, select_all_contacts_card_le ids sel h, ?_⟩
  · rw [toggle_contact_selection]
    split
    · exact h
    · next hcond =>
        rw [toggle_selection]
        split
        · exact le_trans Finset.card_erase_le h
        · next hmem =>
            have hfalse : is_selected sel idStr = false := by
              simp [is_selected, hmem]
            have hlt : sel.card < MAX_CONTACTS := by
              by_contra hge
              exact hcond ⟨hfalse, le_of_not_lt hge⟩
            calc (insert idStr sel).card ≤ sel.card + 1 := Finset.card_insert_le _ _
              _ ≤ MAX_CONTACTS := hlt
  · intro h1 h2
    rw [toggle_contact_selection, if_pos ⟨h1, h2⟩]

/-- Witness for `c2_amended` at a concrete small store. -/
theorem c2_amended_witness :
    ({"7"} : Finset String).card ≤ MAX_CONTACTS
    ∧ ((toggle_contact_selection {"7"} "8").card ≤ MAX_CONTACTS
      ∧ (select_all_contacts {"7"} ["8", "9"]).card ≤ MAX_CONTACTS
      ∧ (is_selected {"7"} "8" = false → MAX_CONTACTS ≤ ({"7"} : Finset String).card →
          toggle_contact_selection {"7"} "8" = {"7"})) :=
  ⟨by decide, c2_amended {"7"} "8" ["8", "9"] (by decide)⟩

/-! ## Claim C8 -/

/-- C8: `toggle` is its own inverse — after two consecutive
`toggle_selection` calls on the same identifier, `is_selected` reports
the same value as before either call. -/
theorem c8_toggle_involutive (sel : Finset String) (idStr : String) :
    is_selected (toggle_selection (toggle_selection sel idStr) idStr) idStr
      = is_selected sel idStr := by
  by_cases h : idStr ∈ sel
  · simp [toggle_selection, is_selected, h]
  · simp [toggle_selection, is_selected, h]

/-! ## Claim C10 -/

/-- C10: deselection is never blocked by the cardinality limit — for a
currently selected identifier, the editor toggle removes it from the
store whatever the store cardinality is (the limit guard applies only
when the toggle would add). -/
theorem c10_deselect_unblocked (sel : Finset String) (idStr : String)
    (h : idStr ∈ sel) :
    toggle_contact_selection sel idStr = sel.erase idStr
    ∧ is_selected (toggle_contact_selection sel idStr) idStr = false := by
  have hcond : ¬(is_selected sel idStr = false ∧ MAX_CONTACTS ≤ sel.card) := by
    simp [is_selected, h]
  have heq : toggle_contact_selection sel idStr = sel.erase idStr := by
    rw [toggle_contact_selection, if_neg hcond, toggle_selection, if_pos h]
  exact ⟨heq, by simp [heq, is_selected]⟩

/-- Witness for `c10_deselect_unblocked`. -/
theorem c10_deselect_unblocked_witness :
    ("5" ∈ ({"5", "6"} : Finset String))
    ∧ (toggle_contact_selection {"5", "6"} "5" = Finset.erase {"5", "6"} "5"
      ∧ is_selected (toggle_contact_selection {"5", "6"} "5") "5" = false) :=
  ⟨by decide, c10_deselect_unblocked {"5", "6"} "5" (by decide)⟩

/-! ## Claim C7 -/

theorem convertChannelsFrom_map_number (rows : List TYTChannelRow) :
    ∀ num : Int,
      (convertChannelsFrom num rows).map Channel.channelNumber
        = (List.range rows.length).map (fun i : Nat => num + (i : Int)) := by
  induction rows with
  | nil => intro num; rfl
  | cons r rs ih =>
      intro num
      rw [convertChannelsFrom, List.map_cons, ih (num + 1)]
      rw [List.length_cons, List.range_succ_eq_map, List.map_cons, List.map_map]
      refine congrArg₂ List.cons (by simp [mkChannel]) ?_
      refine List.map_congr_left ?_
      intro i _
      simp only [Function.comp_apply]
      push_cast
      ring

theorem convertChannelsFrom_getElem (rows : List TYTChannelRow) :
    ∀ (num : Int) (i : Nat) (h : i < rows.length),
      (convertChannelsFrom num rows)[i]?
        = some (mkChannel (num + (i : Int)) (rows.get ⟨i, h⟩)) := by
  induction rows with
  | nil =>
      intro num i h
      exact absurd h (by simp)
  | cons r rs ih =>
      intro num i h
      cases i with
      | zero => simp [convertChannelsFrom]
      | succ j =>
          have hj : j < rs.length := by
            simpa [List.length_cons, Nat.succ_lt_succ_iff] using h
          rw [convertChannelsFrom]
          have hstep := ih (num + 1) j hj
          simp only [List.getElem?_cons_succ, hstep, List.get_cons_succ]
          refine congrArg some (congrArg₂ mkChannel ?_ rfl)
          push_cast
          ring

/-- C7: `convert_channels` assigns `ChannelNumber` sequentially starting
at 1 in input row order (the input rows' own channel index is never
read); each row maps positionally through `mkChannel`; and per row, a
Digital row (`Channel Mode = 2`) with `Color Code = 3` and
`Repeater Slot = 1` yields `ColourCode = "3"`, `Timeslot = "1"` and
empty `Bandwidth`, while an Analogue row (`Channel Mode = 1`) yields
`Bandwidth = "25"` and empty `ColourCode` and `Timeslot`. -/
theorem c7_channel_mapping (rows : List TYTChannelRow) :
    (convert_channels rows).map Channel.channelNumber
        = (List.range rows.length).map (fun i : Nat => 1 + (i : Int))
    ∧ (∀ (i : Nat) (h : i < rows.length),
        (convert_channels rows)[i]?
          = some (mkChannel (1 + (i : Int)) (rows.get ⟨i, h⟩)))
    ∧ (∀ (num : Int) (r : TYTChannelRow),
        (r.channelMode = 2 → r.colorCode = 3 → r.repeaterSlot = 1 →
          (mkChannel num r).colourCode = "3" ∧ (mkChannel num r).timeslot = "1"
            ∧ (mkChannel num r).bandwidth = "")
        ∧ (r.channelMode = 1 →
          (mkChannel num r).bandwidth = "25" ∧ (mkChannel num r).colourCode = ""
            ∧ (mkChannel num r).timeslot = "")) := by
  refine ⟨convertChannelsFrom_map_number rows 1,
          convertChannelsFrom_getElem rows 1, ?_⟩
  intro num r
  constructor
  · intro hm hc hs
    refine ⟨?_, ?_, ?_⟩ <;> simp [mkChannel, hm, hc, hs] <;> decide
  · intro hm
    refine ⟨?_, ?_, ?_⟩ <;> simp [mkChannel, hm]

/-- Witness for `c7_channel_mapping` at the two concrete scenario rows
of `c7Rows`. -/
theorem c7_channel_mapping_witness :
    (convert_channels c7Rows).map Channel.channelNumber = [(1 : Int), 2]
    ∧ (0 : Nat) < c7Rows.length
    ∧ (convert_channels c7Rows)[0]? = some (mkChannel 1 (c7Rows.get ⟨0, by decide⟩))
    ∧ ((mkChannel 1 (c7Rows.get ⟨0, by decide⟩)).colourCode = "3"
      ∧ (mkChannel 1 (c7Rows.get ⟨0, by decide⟩)).timeslot = "1"
      ∧ (mkChannel 1 (c7Rows.get ⟨0, by decide⟩)).bandwidth = "")
    ∧ ((mkChannel 2 (c7Rows.get ⟨1, by decide⟩)).bandwidth = "25"
      ∧ (mkChannel 2 (c7Rows.get ⟨1, by decide⟩)).colourCode = ""
      ∧ (mkChannel 2 (c7Rows.get ⟨1, by decide⟩)).timeslot = "") := by
  have h := c7_channel_mapping c7Rows
  refine ⟨by simpa using h.1, by decide,
          by simpa using h.2.1 0 (by decide),
          ((h.2.2 1 (c7Rows.get ⟨0, by decide⟩)).1 (by decide) (by decide) (by decide)),
          ((h.2.2 2 (c7Rows.get ⟨1, by decide⟩)).2 (by decide))⟩

/-! ## Claim C5 -/

/-- C5: with both selections empty at export time, `import_selected`
fails with `NothingSelected` and the export session leaves the output
directory (and, the model being pure, the editor state) untouched. -/
theorem c5_nothing_selected (st : EditorState) (fs : FileSystem)
    (h1 : st.contactSel = ∅) (h2 : st.channelSel = ∅) :
    import_selected st = .error .nothingSelected
    ∧ runExportSession st fs = fs := by
  have himp : import_selected st = .error .nothingSelected := by
    rw [import_selected, if_pos ⟨h1, h2⟩]
  refine ⟨himp, ?_⟩
  rw [runExportSession, himp]

/-- Witness for `c5_nothing_selected`: exporting from `c5State` with a
pre-existing `Contacts.csv` in the output directory leaves the
directory exactly as it was. -/
theorem c5_nothing_selected_witness :
    c5State.contactSel = ∅
    ∧ c5State.channelSel = ∅
    ∧ (import_selected c5State = .error .nothingSelected
      ∧ runExportSession c5State c5Fs = c5Fs) :=
  ⟨rfl, rfl, c5_nothing_selected c5State c5Fs rfl rfl⟩

/-! ## Claim C6 -/

theorem dc9al_positive_map_spec (rows : List DC9ALRow) :
    ((rows.filterMap (fun row =>
        (pyToNumeric row.radioID).map (fun q => (dc9alRawName row, q)))).filter
      (fun p => decide (0 < p.2))).map dc9alFinalize
    = rows.filterMap dc9alSpecRow := by
  induction rows with
  | nil => rfl
  | cons row rest ih =>
      rw [List.filterMap_cons, List.filterMap_cons]
      cases hq : pyToNumeric row.radioID with
      | none => simpa [dc9alSpecRow, hq] using ih
      | some q =>
          by_cases hpos : 0 < q
          · simp [dc9alSpecRow, hq, hpos, List.filter_cons, dc9alFinalize, ih]
          · simp [dc9alSpecRow, hq, hpos, List.filter_cons, ih]

/-- C6: the DC9AL contact mapper produces exactly the rows whose
`Radio ID` parses numerically to a value `> 0`, deduplicated by ID
keeping the first occurrence, each carrying the cleaned
callsign/name-derived `ContactName` (as spelt out by `dc9alSpecRow`),
and `ID Type` is always `Private`. -/
theorem c6_dc9al_mapping (rows : List DC9ALRow) :
    convert_dc9al_contacts rows
      = dedupByKeyFirst Contact.id (rows.filterMap dc9alSpecRow)
    ∧ ∀ c ∈ convert_dc9al_contacts rows, c.idType = some "Private" := by
  have hsnd : (fun p : String × Rat => Contact.id (dc9alFinalize p)) = Prod.snd := rfl
  have hmap := dedupByKeyFirst_map Contact.id dc9alFinalize
      ((rows.filterMap (fun row =>
        (pyToNumeric row.radioID).map (fun q => (dc9alRawName row, q)))).filter
        (fun p => decide (0 < p.2)))
  rw [hsnd] at hmap
  constructor
  · simp only [convert_dc9al_contacts]
    rw [hmap, dc9al_positive_map_spec]
  · intro c hc
    simp only [convert_dc9al_contacts, List.mem_map] at hc
    obtain ⟨p, _, rfl⟩ := hc
    rfl

/-- Witness for `c6_dc9al_mapping` at `dc9alExampleRows`: the spec
scenario row survives as `DL1ABC John / 2621234 / Private`, while the
non-numeric, zero and duplicate rows are dropped. -/
theorem c6_dc9al_mapping_witness :
    convert_dc9al_contacts dc9alExampleRows
      = dedupByKeyFirst Contact.id (dc9alExampleRows.filterMap dc9alSpecRow)
    ∧ dl1abcContact ∈ convert_dc9al_contacts dc9alExampleRows
    ∧ convert_dc9al_contacts dc9alExampleRows = [dl1abcContact]
    ∧ dl1abcContact.idType = some "Private" := by
  have h := c6_dc9al_mapping dc9alExampleRows
  exact ⟨h.1, by decide, by decide, h.2 _ (by decide)⟩

/-! ## Claim C9 -/

/-- C9 counterexample: the TYT contact mapper copies `Call ID` verbatim,
so a record set whose `Call ID` values are `0` and `0` comes out of the
mapping stage with non-positive and duplicated IDs, refuting the claim
for the TYT dialect. -/
theorem c9_counterexample :
    ¬ ((∀ c ∈ convert_tyt_contacts c9Rows, 0 < c.id)
       ∧ ((convert_tyt_contacts c9Rows).map Contact.id).Nodup) := by
  decide

/-- C9 (amended): the invariant holds for the DC9AL mapper — every ID
of a converted DC9AL record set is `> 0` and IDs are unique — while the
TYT mapper (which copies `Call ID` verbatim) guarantees neither. -/
theorem c9_amended (rows : List DC9ALRow) :
    (∀ c ∈ convert_dc9al_contacts rows, 0 < c.id)
    ∧ ((convert_dc9al_contacts rows).map Contact.id).Nodup := by
  constructor
  · intro c hc
    simp only [convert_dc9al_contacts, List.mem_map] at hc
    obtain ⟨p, hp, rfl⟩ := hc
    have hmem : p ∈ (rows.filterMap (fun row =>
        (pyToNumeric row.radioID).map (fun q => (dc9alRawName row, q)))).filter
          (fun p => decide (0 < p.2)) :=
      (dedupByKeyFirst_sublist Prod.snd _).subset hp
    have hdec := List.of_mem_filter hmem
    exact of_decide_eq_true hdec
  · have hcomp : (convert_dc9al_contacts rows).map Contact.id
        = (dedupByKeyFirst Prod.snd ((rows.filterMap (fun row =>
            (pyToNumeric row.radioID).map (fun q => (dc9alRawName row, q)))).filter
              (fun p => decide (0 < p.2)))).map Prod.snd := by
      simp only [convert_dc9al_contacts, List.map_map]
      rfl
    rw [hcomp]
    exact List.Pairwise.map Prod.snd (fun a b h => h)
      (dedupByKeyFirst_pairwise Prod.snd _)

/-- Witness for `c9_amended` at `dc9alExampleRows`. -/
theorem c9_amended_witness :
    dl1abcContact ∈ convert_dc9al_contacts dc9alExampleRows
    ∧ (0 : Rat) < dl1abcContact.id
    ∧ ((convert_dc9al_contacts dc9alExampleRows).map Contact.id).Nodup := by
  have h := c9_amended dc9alExampleRows
  exact ⟨by decide, h.1 _ (by decide), h.2⟩

/-! ## Claim C1 -/

theorem applyFilterOps_preserves (ops : List FilterOp) :
    ∀ st : EditorState,
      (applyFilterOps st ops).originalContacts = st.originalContacts
      ∧ (applyFilterOps st ops).originalChannels = st.originalChannels
      ∧ (applyFilterOps st ops).contactSel = st.contactSel
      ∧ (applyFilterOps st ops).channelSel = st.channelSel := by
  induction ops with
  | nil => intro st; exact ⟨rfl, rfl, rfl, rfl⟩
  | cons op rest ih =>
      intro st
      cases op with
      | contacts s t =>
          rw [applyFilterOps]
          exact ih (filter_contacts st s t)
      | channels s t =>
          rw [applyFilterOps]
          exact ih (filter_channels st s t)

theorem import_selected_congr (st st' : EditorState)
    (h1 : st'.originalContacts = st.originalContacts)
    (h2 : st'.originalChannels = st.originalChannels)
    (h3 : st'.contactSel = st.contactSel)
    (h4 : st'.channelSel = st.channelSel) :
    import_selected st' = import_selected st := by
  simp only [import_selected, h1, h2, h3, h4]

theorem import_selected_contacts_spec (original : List Contact) (sel : Finset String)
    (hsel : ∀ s ∈ sel, (pyStrToInt s).isSome) :
    import_selected_contacts original sel
      = some (dedupByKeyFirst Contact.id
          (original.filter (fun r => idMatchesSelection sel r.id))) := by
  rw [import_selected_contacts, selectionInts, dif_pos hsel]
  simp only [Option.map_some']
  congr 2
  refine List.filter_congr ?_
  intro r _
  rw [idMatchesSelection]
  refine decide_eq_decide.mpr ?_
  constructor
  · rintro ⟨n, hn, hEq⟩
    obtain ⟨s, hs, rfl⟩ := Finset.mem_image.mp hn
    obtain ⟨m, hm⟩ := Option.isSome_iff_exists.mp (hsel s hs)
    refine ⟨s, hs, ?_⟩
    simp only [hm, Option.getD_some] at hEq
    simp [selIdDenotes, hm, hEq.symm]
  · rintro ⟨s, hs, hden⟩
    obtain ⟨m, hm⟩ := Option.isSome_iff_exists.mp (hsel s hs)
    simp only [selIdDenotes, hm, decide_eq_true_eq] at hden
    refine ⟨(pyStrToInt s).getD 0, Finset.mem_image_of_mem _ hs, ?_⟩
    simp [hm, hden.symm]

/-- C1: export is filter-independent.  For every editor state and every
sequence of filter/search interactions performed before exporting,
`import_selected` returns the same result as with no filtering at all,
and (for a selection of canonical identifier strings) its contact rows
are exactly the rows of the ORIGINAL record set whose ID is denoted by
a member of the global selection, in original order, deduplicated by
ID. -/
theorem c1_export_filter_independent (st : EditorState) (ops : List FilterOp)
    (hsel : ∀ s ∈ st.contactSel, (pyStrToInt s).isSome) :
    import_selected (applyFilterOps st ops) = import_selected st
    ∧ import_selected_contacts st.originalContacts st.contactSel
      = some (dedupByKeyFirst Contact.id
          (st.originalContacts.filter (fun r => idMatchesSelection st.contactSel r.id))) := by
  obtain ⟨h1, h2, h3, h4⟩ := applyFilterOps_preserves ops st
  exact ⟨import_selected_congr st (applyFilterOps st ops) h1 h2 h3 h4,
         import_selected_contacts_spec st.originalContacts st.contactSel hsel⟩

/-- Witness for `c1_export_filter_independent`: contact id `5` is
selected, then the type filter is switched to `Group` (hiding it);
the export still contains the id-5 row. -/
theorem c1_export_filter_independent_witness :
    (∀ s ∈ c1State.contactSel, (pyStrToInt s).isSome)
    ∧ import_selected (applyFilterOps c1State c1Ops) = import_selected c1State
    ∧ import_selected_contacts c1State.originalContacts c1State.contactSel
        = some [aliceContact]
    ∧ aliceContact.id = 5 := by
  refine ⟨by decide, (c1_export_filter_independent c1State c1Ops (by decide)).1,
    by decide, rfl⟩

/-! ## Claim C4 -/

/-- C4 counterexample: with the non-empty selection `{"5", "3"}` over an
original record set whose rows carry IDs `[5, 3]`, the exported contact
rows keep the original row order `[5, 3]` — pandas `.isin` selection
preserves DataFrame row order and only the membership list is sorted —
so the export is NOT ascending by ID. -/
theorem c4_counterexample :
    c4Sel ≠ (∅ : Finset String)
    ∧ (import_selected_contacts c4Orig c4Sel).map (fun l => l.map Contact.id)
        = some [(5 : Rat), 3]
    ∧ ¬ List.Sorted (· ≤ ·) [(5 : Rat), 3] := by
  refine ⟨by decide, by decide, ?_⟩
  intro hs
  have h53 : (5 : Rat) ≤ 3 := List.rel_of_sorted_cons hs 3 (by simp)
  norm_num at h53

/-- C4 (amended): the export keeps rows in the original record set's
order — the exported contact list is a sublist of the original record
set (ascending by ID only when the original already is) — while the
exported channel list IS ascending by Channel Number, because
`convert_channels` numbers rows sequentially and the export preserves
that order. -/
theorem c4_amended (original : List Contact) (chRows : List TYTChannelRow)
    (selC selCh : Finset String) (lc : List Contact) (lch : List Channel)
    (hc : import_selected_contacts original selC = some lc)
    (hch : import_selected_channels (convert_channels chRows) selCh = some lch) :
    List.Sublist lc original
    ∧ List.Sorted (· < ·) (lch.map Channel.channelNumber) := by
  constructor
  · obtain ⟨ints, _, hlc⟩ := Option.map_eq_some'.mp hc
    rw [← hlc]
    exact (dedupByKeyFirst_sublist _ _).trans (List.filter_sublist _)
  · obtain ⟨ints, _, hlch⟩ := Option.map_eq_some'.mp hch
    have hsub : List.Sublist lch (convert_channels chRows) := by
      rw [← hlch]
      exact (dedupByKeyFirst_sublist _ _).trans (List.filter_sublist _)
    have hall : List.Sorted (· < ·)
        ((convert_channels chRows).map Channel.channelNumber) := by
      rw [convert_channels, convertChannelsFrom_map_number chRows 1]
      exact List.Pairwise.map (fun i : Nat => 1 + (i : Int))
        (fun a b hab => by push_cast; omega)
        (List.pairwise_lt_range chRows.length)
    exact List.Pairwise.sublist (hsub.map Channel.channelNumber) hall

/-- Witness for `c4_amended`: selecting id `3` out of `c4Orig` exports
`[alphaContact]` (a sublist of the original), and selecting both
converted channels of `c7Rows` exports them with ascending channel
numbers. -/
theorem c4_amended_witness :
    import_selected_contacts c4Orig c4WSel = some [alphaContact]
    ∧ import_selected_channels (convert_channels c7Rows) c4SelCh = some c4WChannels
    ∧ List.Sublist [alphaContact] c4Orig
    ∧ List.Sorted (· < ·) (c4WChannels.map Channel.channelNumber) := by
  have h := c4_amended c4Orig c7Rows c4WSel c4SelCh [alphaContact] c4WChannels
    (by decide) (by decide)
  exact ⟨by decide, by decide, h.1, h.2⟩

/-! ## Claim C3 -/

/-- C3 (code bug): canonicalization is `str(...)`, which is consistent
on integers and their string forms — but the mapping stage CAN produce
a `"7.0"`-style float artifact.  On `c3Rows` (one unparseable
`Radio ID` plus the value `2621234`) `pd.to_numeric(errors=coerce)`
makes the ID column float64, the surviving record's canonical key
renders as `"2621234.0"` instead of `"2621234"`, and the export stage's
`int("2621234.0")` then raises `ValueError`, aborting the export. -/
theorem c3_float_artifact :
    dc9alCanonicalKeys c3Rows = ["2621234.0"]
    ∧ canonicalize (PyVal.vint 2621234) = "2621234"
    ∧ canonicalize (PyVal.vstr "2621234") = "2621234"
    ∧ ("2621234.0" : String) ≠ "2621234"
    ∧ pyStrToInt "2621234.0" = none := by
  exact ⟨by decide, by decide, rfl, by decide, by decide⟩
